import Mathlib

/-!
Shallow embedding of the pooling-operator shape/type inference of
`coremltools/converters/mil/mil/ops/defs/iOS15/pool.py`:
the `Pooling` operation superclass (its `default_inputs` and
`type_inference`), and the three concrete operators `avg_pool`,
`l2_pool` and `max_pool`.

The per-dimension output-extent utility `spatial_dimensions_out_shape`
lives in `ops/defs/_utils.py`, which is not part of the provided
sources; it is modelled from the specification (its doc comment says
so), faithful to the formulas the spec gives.

Machine integers are modelled as `Int` (shape extents may become
non-positive through the formulas, which the algorithm propagates);
the floor division `//` of the reference language is `Int.fdiv`, and
the ceiling of a quotient is `ceil_div`.  A raised `ValueError` is
`Except.error` with the message string; the spec groups all of these
under the single error kind `InvalidParameter`.
-/

/-- Element types admitted by the pooling type domain `T`. -/
inductive DType where
  | fp16
  | fp32
  deriving DecidableEq, Repr

/-- A tensor type: an element dtype and a shape. -/
structure TensorType where
  dtype : DType
  shape : List Int
  deriving DecidableEq, Repr

/-- The iOS15 opset marker (`_IOS15_TARGET`), the earliest supported target. -/
def iOS15_TARGET : Nat := 15

/-- The inputs of a `Pooling` operation, per `Pooling.input_spec`:
`x` (its shape and dtype), const `kernel_sizes`, optional const
`strides`, const `pad_type` (a string), optional const `pad`, optional
const `ceil_mode`.  The ambient compilation target
(`curr_opset_version()`) is threaded in as an explicit field. -/
structure PoolOp where
  x_shape : List Int
  x_dtype : DType
  kernel_sizes : List Int
  strides : Option (List Int)
  pad_type : String
  pad : Option (List Int)
  ceil_mode : Option Bool
  opset_version : Nat
  deriving DecidableEq, Repr

/-- The `str.lower()` call on the ASCII parameter strings involved:
lower-case every character.  (`String.toLower` in this toolchain is
defined by well-founded recursion over byte positions and does not
reduce inside the kernel; this structurally recursive form computes the
same string.) -/
def py_lower (s : String) : String := String.mk (s.data.map Char.toLower)

/-- `Pooling.default_inputs`: with `num_spatial_dims = x.rank - 2`,
unset `strides` defaults to that many ones, unset `pad` to twice that
many zeros, unset `ceil_mode` to `False`. -/
def Pooling.default_inputs (op : PoolOp) : PoolOp :=
  let num_spatial_dims := op.x_shape.length - 2
  { op with
    strides := some (op.strides.getD (List.replicate num_spatial_dims 1))
    pad := some (op.pad.getD (List.replicate (2 * num_spatial_dims) 0))
    ceil_mode := some (op.ceil_mode.getD false) }

/-- Ceiling division for a positive divisor, `ceil(a / b)`. -/
def ceil_div (a b : Int) : Int := -(Int.fdiv (-a) b)

/-- Modelled from the spec: the per-dimension padding/stride arithmetic
utility `spatial_dimensions_out_shape` of `ops/defs/_utils.py`, which is
absent from the provided sources.  Per spatial dimension `i` the
effective total pad is `0` for `valid`, `pad[2i] + pad[2i+1]` for
`custom`, and for `same` / `same_lower` the minimal non-negative total
making the floor-mode formula yield `ceil(Din[i]/S[i])`; `same` places
an odd remainder after the dimension, `same_lower` before it.  Floor
mode gives `floor((Din + P - K) / S) + 1`; ceil mode gives
`ceil((Din + P - K) / S) + 1` with a decrement when
`(Dout - 1) * S >= Din + pad_before` and `P > 0`. -/
def spatial_dimensions_out_shape (pad_type : String) (input_shape : List Int)
    (kernel_shape : List Int) (strides : List Int) (custom_pad : Option (List Int))
    (ceil_mode : Bool) : List Int :=
  let D := input_shape.length
  let cpad := custom_pad.getD (List.replicate (2 * D) 0)
  (List.range D).map (fun i =>
    let din := input_shape.getD i 0
    let k := kernel_shape.getD i 0
    let s := strides.getD i 1
    let total : Int :=
      if pad_type = "custom" then cpad.getD (2 * i) 0 + cpad.getD (2 * i + 1) 0
      else if pad_type = "same" ∨ pad_type = "same_lower" then
        max 0 ((ceil_div din s - 1) * s + k - din)
      else 0
    let pad_before : Int :=
      if pad_type = "custom" then cpad.getD (2 * i) 0
      else if pad_type = "same" then total / 2
      else if pad_type = "same_lower" then total - total / 2
      else 0
    if ceil_mode then
      let d0 := ceil_div (din + total - k) s + 1
      if (d0 - 1) * s ≥ din + pad_before ∧ total > 0 then d0 - 1 else d0
    else
      Int.fdiv (din + total - k) s + 1)

/-- The symmetric-padding scan of `Pooling.type_inference` (lines
59-62): with `pad` explicitly present, some spatial dimension `i` has
`pad[2i] != pad[2i+1]`. -/
def pad_asymmetric (pad : Option (List Int)) (D : Nat) : Bool :=
  match pad with
  | none => false
  | some p => (List.range D).any (fun i => p.getD (2 * i) 0 != p.getD (2 * i + 1) 0)

/-- `Pooling.type_inference`: validation cascade followed by the
spatial output-shape computation; the result keeps the leading two
dimensions and the input dtype.  Note that the iOS15 `same_lower`
check compares the raw `self.pad_type.val`, not the lower-cased one. -/
def Pooling.type_inference (op : PoolOp) : Except String TensorType :=
  let ksize := op.kernel_sizes
  let x_shape := op.x_shape
  let D_in_rank := x_shape.length - 2
  let strides := op.strides.getD (List.replicate D_in_rank 1)
  let pad_type := py_lower op.pad_type
  if ¬ (pad_type = "valid" ∨ pad_type = "same" ∨ pad_type = "custom" ∨
      pad_type = "same_lower") then
    Except.error ("Unrecognized value of pad_type : " ++ pad_type)
  else
    let pad := op.pad
    let D_in := x_shape.drop 2
    let cm := op.ceil_mode.getD false
    if cm ∧ D_in_rank > 2 then
      Except.error "pool: ceil_mode only supported for 1D or 2D pool"
    else if cm ∧ pad_type = "same" then
      Except.error "ceil_mode must be False when pad_type==same"
    else if cm ∧ pad_asymmetric pad D_in_rank then
      Except.error "Padding must be symmetric if ceil_mode is True"
    else if op.opset_version = iOS15_TARGET ∧ op.pad_type = "same_lower" then
      Except.error "iOS15 version of pooling layers do not support pad_type = same_lower"
    else
      let D_out := spatial_dimensions_out_shape pad_type D_in ksize strides pad cm
      Except.ok { dtype := op.x_dtype, shape := x_shape.take 2 ++ D_out }

/-- Type inference of a `Pooling`-family op as invoked on a constructed
operation: optional inputs are first resolved by `default_inputs`. -/
def pool_type_inference (op : PoolOp) : Except String TensorType :=
  Pooling.type_inference (Pooling.default_inputs op)

/-- `max_pool` adds nothing to the base contract. -/
def max_pool_type_inference (op : PoolOp) : Except String TensorType :=
  pool_type_inference op

/-- An `avg_pool` operation: the base pooling inputs plus the optional
const `exclude_padding_from_average` flag. -/
structure AvgPoolOp extends PoolOp where
  exclude_padding_from_average : Option Bool
  deriving DecidableEq, Repr

/-- `avg_pool` inherits `Pooling.type_inference` unchanged; its extra
flag is not read during type inference. -/
def avg_pool_type_inference (op : AvgPoolOp) : Except String TensorType :=
  pool_type_inference op.toPoolOp

/-- `l2_pool.type_inference`: rejects more than two spatial dimensions,
then delegates to the base `Pooling.type_inference`. -/
def l2_pool.type_inference (op : PoolOp) : Except String TensorType :=
  if op.x_shape.length - 2 > 2 then
    Except.error ("l2_pool only supports rank 1 or 2. Got rank: " ++
      toString (op.x_shape.length - 2))
  else Pooling.type_inference op

/-- `l2_pool` type inference on a constructed operation. -/
def l2_pool_type_inference (op : PoolOp) : Except String TensorType :=
  l2_pool.type_inference (Pooling.default_inputs op)

/-- Concrete op for the C1 witness (the spec §8 example: `Din = [10]`,
`K = [3]`, `S = [2]`, `pad_type = valid`, `ceil_mode = false`). -/
def c1w_op : PoolOp :=
  ⟨[1, 1, 10], DType.fp32, [3], some [2], "valid", none, none, 16⟩

/-- Concrete op for the C2 witness. -/
def c2w_op : PoolOp :=
  ⟨[1, 1, 5], DType.fp32, [3], none, "same", none, none, 16⟩

/-- Concrete op for the C3 counterexample: `same_lower` with
`ceil_mode = true` on a post-iOS15 target. -/
def c3cex_op : PoolOp :=
  ⟨[1, 1, 4], DType.fp32, [2], some [2], "same_lower", none, some true, 16⟩

/-- The C3 counterexample op with `pad_type` replaced by `same`. -/
def c3cex_same_op : PoolOp :=
  ⟨[1, 1, 4], DType.fp32, [2], some [2], "same", none, some true, 16⟩

/-- Concrete op for the C3 witness: `same_lower`, floor mode, on a
post-iOS15 target. -/
def c3w_op : PoolOp :=
  ⟨[1, 1, 4], DType.fp32, [2], some [2], "same_lower", none, none, 16⟩

/-- Concrete op for the C4 witness: ceil mode with asymmetric pad. -/
def c4w_op : PoolOp :=
  ⟨[1, 1, 4], DType.fp32, [2], none, "valid", some [0, 1], some true, 16⟩

/-- Concrete op for the C5 witness: ceil mode with three spatial dims. -/
def c5w_op : PoolOp :=
  ⟨[1, 1, 4, 4, 4], DType.fp32, [2, 2, 2], none, "valid", none, some true, 16⟩

/-- Concrete op for the C6 witness: `l2_pool` input with three spatial
dims. -/
def c6w_op : PoolOp :=
  ⟨[1, 1, 4, 4, 4], DType.fp32, [2, 2, 2], none, "valid", none, none, 16⟩

/-- Concrete rank-6 op for C7: its input is outside the documented
`3 <= rank <= 5` domain, yet nothing in the code rejects it. -/
def rank6_op : PoolOp :=
  ⟨[1, 1, 4, 4, 4, 4], DType.fp32, [2, 2, 2, 2], none, "valid", none, none, 16⟩

/-- Concrete op for the C8 counterexample: `pad_type = custom` with
`pad` unset. -/
def c8cex_custom_op : PoolOp :=
  ⟨[1, 1, 4], DType.fp32, [2], none, "custom", none, none, 16⟩

/-- Concrete op for the C8 counterexample: `pad_type = valid` with an
explicitly supplied asymmetric `pad` and `ceil_mode = true`. -/
def c8cex_asym_op : PoolOp :=
  ⟨[1, 1, 4], DType.fp32, [2], none, "valid", some [0, 1], some true, 16⟩

/-- The C8 asymmetric-pad counterexample op with `pad` unset instead. -/
def c8cex_nopad_op : PoolOp :=
  ⟨[1, 1, 4], DType.fp32, [2], none, "valid", none, some true, 16⟩

/-- Concrete op for the C8 witness: `valid` with a supplied symmetric
pad, floor mode. -/
def c8w_op : PoolOp :=
  ⟨[1, 1, 4], DType.fp32, [2], none, "valid", some [5, 5], none, 16⟩

/-- Concrete op for the C9 witness. -/
def c9w_op : PoolOp :=
  ⟨[1, 1, 10], DType.fp32, [3], some [2], "valid", none, none, 16⟩

/-- Concrete `avg_pool` op for the C10 witness, flag set to true. -/
def c10w_a : AvgPoolOp :=
  ⟨⟨[1, 1, 4], DType.fp32, [2], none, "valid", none, none, 16⟩, some true⟩

/-- The C10 witness op with the flag set to false instead. -/
def c10w_b : AvgPoolOp :=
  ⟨⟨[1, 1, 4], DType.fp32, [2], none, "valid", none, none, 16⟩, some false⟩

lemma py_lower_same : py_lower "same" = "same" := rfl

lemma py_lower_same_lower : py_lower "same_lower" = "same_lower" := rfl

/-- Claim C1: for a pooling invocation with `pad_type = valid`, `pad`
absent and `ceil_mode = false`, type inference succeeds and every
spatial output extent `i` is `floor((Din[i] - K[i]) / S[i]) + 1`, with
`S` the resolved strides (all ones when absent). -/
theorem valid_floor_out_shape (op : PoolOp)
    (h1 : op.pad_type = "valid") (h2 : op.pad = none)
    (h3 : op.ceil_mode.getD false = false) :
    pool_type_inference op =
      Except.ok ⟨op.x_dtype, op.x_shape.take 2 ++
        (List.range (op.x_shape.length - 2)).map (fun i =>
          Int.fdiv ((op.x_shape.drop 2).getD i 0 - op.kernel_sizes.getD i 0)
            ((op.strides.getD (List.replicate (op.x_shape.length - 2) 1)).getD i 1) + 1)⟩ := by
  obtain ⟨xs, dt, ks, st, pt, pd, cm, v⟩ := op
  simp only at h1 h2 h3 ⊢
  subst h1 h2
  simp only [pool_type_inference, Pooling.default_inputs, Pooling.type_inference,
    spatial_dimensions_out_shape, py_lower, Option.getD_some, h3] at *
  simp [h3]

/-- Witness for C1, the example of spec §8: `Din = [10]`, `K = [3]`,
`S = [2]`, `pad_type = valid`, `ceil_mode = false` gives `Dout = [4]`. -/
theorem valid_floor_out_shape_witness :
    pool_type_inference c1w_op = Except.ok ⟨DType.fp32, [1, 1, 4]⟩ :=
  valid_floor_out_shape c1w_op rfl rfl rfl

/-- Claim C2: for a pooling invocation with `pad_type = same`, every
resolved stride equal to 1, positive kernel sizes, and
`ceil_mode = false`, the output tensor type is the input shape
unchanged (identity mapping of the spatial extents). -/
theorem same_unit_stride_identity (op : PoolOp)
    (h1 : op.pad_type = "same")
    (h3 : op.ceil_mode.getD false = false)
    (hs : ∀ i < op.x_shape.length - 2,
      (op.strides.getD (List.replicate (op.x_shape.length - 2) 1)).getD i 1 = 1)
    (hk : ∀ i < op.x_shape.length - 2, 1 ≤ op.kernel_sizes.getD i 0) :
    pool_type_inference op = Except.ok ⟨op.x_dtype, op.x_shape⟩ := by
  obtain ⟨xs, dt, ks, st, pt, pd, cm, v⟩ := op
  simp only at h1 h3 hs hk ⊢
  subst h1
  simp only [pool_type_inference, Pooling.default_inputs, Pooling.type_inference,
    spatial_dimensions_out_shape, py_lower, Option.getD_some, h3] at *
  simp
  conv_rhs => rw [← List.take_append_drop 2 xs]
  congr 1
  apply List.ext_getElem
  · simp
  · intro i hi1 hi2
    have hilen : i < xs.length - 2 := by simpa using hi1
    have hs2 := hs i hilen
    have hk2 := hk i hilen
    simp only [List.getD_eq_getElem?_getD] at hs2 hk2
    simp only [List.getElem_map, List.getElem_range, List.getElem_drop, hs2]
    have hbound : 2 + i < xs.length := by omega
    rw [List.getElem?_eq_getElem hbound]
    simp only [Option.getD_some, ceil_div, Int.fdiv_one, mul_one]
    have hk3 : (1 : Int) ≤ ks[i]?.getD 0 := hk2
    omega

/-- Witness for C2: `Din = [5]`, `K = [3]`, default strides,
`pad_type = same` gives back `[1, 1, 5]`. -/
theorem same_unit_stride_identity_witness :
    pool_type_inference c2w_op = Except.ok ⟨DType.fp32, [1, 1, 5]⟩ :=
  same_unit_stride_identity c2w_op rfl rfl (by decide) (by decide)

/-- Counterexample to C3 as stated: with `ceil_mode = true` a
`same_lower` invocation on a post-iOS15 target succeeds, while the same
parameters with `pad_type = same` raise, so no output shape of `same`
exists for it to agree with. -/
theorem same_lower_gating_cex :
    pool_type_inference c3cex_op = Except.ok ⟨DType.fp32, [1, 1, 2]⟩ ∧
    pool_type_inference c3cex_same_op =
      Except.error "ceil_mode must be False when pad_type==same" :=
  ⟨rfl, rfl⟩

/-- Claim C3 (amended): a `same_lower` invocation on the earliest
target always raises; on any later target, provided `ceil_mode` is
false, it succeeds and yields exactly the output type that
`pad_type = same` yields on the same remaining parameters. -/
theorem same_lower_gating (op : PoolOp) (h : op.pad_type = "same_lower") :
    (op.opset_version = iOS15_TARGET → ∃ e, pool_type_inference op = Except.error e) ∧
    (op.opset_version ≠ iOS15_TARGET → op.ceil_mode.getD false = false →
      ∃ t, pool_type_inference op = Except.ok t ∧
        pool_type_inference { op with pad_type := "same" } = Except.ok t) := by
  obtain ⟨xs, dt, ks, st, pt, pd, cm, v⟩ := op
  simp only at h ⊢
  subst h
  constructor
  · intro hv
    subst hv
    simp only [pool_type_inference, Pooling.default_inputs, Pooling.type_inference,
      py_lower_same_lower, Option.getD_some, iOS15_TARGET]
    repeat' split
    all_goals try exact ⟨_, rfl⟩
    all_goals simp_all
  · intro hv hcm
    have hv15 : ¬ v = 15 := by simpa [iOS15_TARGET] using hv
    simp only [pool_type_inference, Pooling.default_inputs, Pooling.type_inference,
      spatial_dimensions_out_shape, py_lower_same_lower, py_lower_same,
      Option.getD_some, iOS15_TARGET, hcm]
    simp [hv15]

/-- Witness for C3: a `same_lower` op on target 16 in floor mode
succeeds with the same output type as its `same` counterpart. -/
theorem same_lower_gating_witness :
    ∃ t, pool_type_inference c3w_op = Except.ok t ∧
      pool_type_inference { c3w_op with pad_type := "same" } = Except.ok t :=
  (same_lower_gating c3w_op rfl).2 (by decide) rfl

/-- Claim C4: `ceil_mode = true` with an explicitly supplied pad that is
asymmetric in some spatial dimension always makes type inference raise,
whatever the other parameters. -/
theorem ceil_asymmetric_pad_rejected (op : PoolOp) (p : List Int)
    (hcm : op.ceil_mode = some true) (hp : op.pad = some p)
    (hlen : p.length = 2 * (op.x_shape.length - 2))
    (hasym : ∃ i < op.x_shape.length - 2, p.getD (2 * i) 0 ≠ p.getD (2 * i + 1) 0) :
    ∃ e, pool_type_inference op = Except.error e := by
  obtain ⟨xs, dt, ks, st, pt, pd, cm, v⟩ := op
  simp only at hcm hp hlen hasym ⊢
  subst hcm
  subst hp
  have hasym2 : pad_asymmetric (some p) (xs.length - 2) = true := by
    obtain ⟨i, hi, hne⟩ := hasym
    simp only [pad_asymmetric, List.any_eq_true, List.mem_range]
    exact ⟨i, hi, by simpa using hne⟩
  simp only [pool_type_inference, Pooling.default_inputs, Pooling.type_inference,
    Option.getD_some]
  repeat' split
  all_goals try exact ⟨_, rfl⟩
  all_goals simp_all

/-- Witness for C4: `pad = [0, 1]` under ceil mode is rejected. -/
theorem ceil_asymmetric_pad_rejected_witness :
    ∃ e, pool_type_inference c4w_op = Except.error e :=
  ceil_asymmetric_pad_rejected c4w_op [0, 1] rfl rfl rfl (by decide)

/-- Claim C5: `ceil_mode = true` with a rank-5 input (three spatial
dimensions) always raises, and `ceil_mode = true` with
`pad_type = same` always raises. -/
theorem ceil_mode_restrictions (op : PoolOp) (hcm : op.ceil_mode = some true) :
    (op.x_shape.length = 5 → ∃ e, pool_type_inference op = Except.error e) ∧
    (op.pad_type = "same" → ∃ e, pool_type_inference op = Except.error e) := by
  obtain ⟨xs, dt, ks, st, pt, pd, cm, v⟩ := op
  simp only at hcm ⊢
  subst hcm
  constructor
  · intro h5
    simp only [pool_type_inference, Pooling.default_inputs, Pooling.type_inference,
      Option.getD_some, h5]
    repeat' split
    all_goals try exact ⟨_, rfl⟩
    all_goals simp_all
  · intro hpt
    subst hpt
    simp only [pool_type_inference, Pooling.default_inputs, Pooling.type_inference,
      Option.getD_some, py_lower_same]
    repeat' split
    all_goals try exact ⟨_, rfl⟩
    all_goals simp_all

/-- Witness for C5: a rank-5 ceil-mode invocation is rejected. -/
theorem ceil_mode_restrictions_witness :
    ∃ e, pool_type_inference c5w_op = Except.error e :=
  (ceil_mode_restrictions c5w_op rfl).1 rfl

/-- Claim C6: `l2_pool` type inference on an input with three spatial
dimensions raises its own rank error unconditionally, before any base
validation or the base shape algorithm can run: the result is exactly
the `l2_pool` rank message, whatever the other parameters. -/
theorem l2_pool_rank3_rejected (op : PoolOp) (h5 : op.x_shape.length = 5) :
    l2_pool_type_inference op =
      Except.error "l2_pool only supports rank 1 or 2. Got rank: 3" := by
  obtain ⟨xs, dt, ks, st, pt, pd, cm, v⟩ := op
  simp only at h5 ⊢
  simp [l2_pool_type_inference, l2_pool.type_inference, Pooling.default_inputs, h5]
  rfl

/-- Witness for C6. -/
theorem l2_pool_rank3_rejected_witness :
    l2_pool_type_inference c6w_op =
      Except.error "l2_pool only supports rank 1 or 2. Got rank: 3" :=
  l2_pool_rank3_rejected c6w_op rfl

/-- C7 failing input: type inference succeeds on a rank-6 input, even
though the documented input contract restricts the rank to at most 5
(and at least 3): no rank check exists in the code. -/
theorem rank_not_validated :
    pool_type_inference rank6_op = Except.ok ⟨DType.fp32, [1, 1, 3, 3, 3, 3]⟩ := rfl

/-- Counterexample to C8 as stated: `pad_type = custom` with `pad`
unset succeeds (the defaulting step fills an all-zero pad), and for
`pad_type = valid` a supplied asymmetric pad under ceil mode is not
ignored: it triggers the symmetry error while the pad-unset invocation
succeeds. -/
theorem pad_usage_cex :
    pool_type_inference c8cex_custom_op = Except.ok ⟨DType.fp32, [1, 1, 3]⟩ ∧
    pool_type_inference c8cex_asym_op =
      Except.error "Padding must be symmetric if ceil_mode is True" ∧
    pool_type_inference c8cex_nopad_op = Except.ok ⟨DType.fp32, [1, 1, 3]⟩ :=
  ⟨rfl, rfl, rfl⟩

/-- Claim C8 (amended): an unset `pad` defaults to all zeros, so
`pad_type = custom` with `pad` unset behaves exactly as an explicit
all-zero pad (rather than failing); and for `pad_type` other than
`custom`, a supplied `pad` is ignored provided `ceil_mode` is false
(under ceil mode it still feeds the symmetric-padding check). -/
theorem pad_usage (op : PoolOp) :
    (op.pad_type = "custom" → op.pad = none →
      pool_type_inference op =
        pool_type_inference
          { op with pad := some (List.replicate (2 * (op.x_shape.length - 2)) 0) }) ∧
    (py_lower op.pad_type ≠ "custom" → op.ceil_mode.getD false = false →
      pool_type_inference op = pool_type_inference { op with pad := none }) := by
  obtain ⟨xs, dt, ks, st, pt, pd, cm, v⟩ := op
  constructor
  · intro hpt hpd
    simp only at hpt hpd
    subst hpt
    subst hpd
    simp [pool_type_inference, Pooling.default_inputs]
  · intro hpt hcm
    simp only at hpt hcm
    simp only [pool_type_inference, Pooling.default_inputs, Pooling.type_inference,
      spatial_dimensions_out_shape, Option.getD_some, hcm]
    simp [hpt]

/-- Witness for C8: a supplied symmetric pad with `pad_type = valid`
in floor mode gives the same result as leaving `pad` unset. -/
theorem pad_usage_witness :
    pool_type_inference c8w_op = pool_type_inference { c8w_op with pad := none } :=
  (pad_usage c8w_op).2 (by decide) rfl

/-- Claim C9: whenever type inference succeeds, the output rank equals
the input rank, the leading two (batch, channel) dimensions are
unchanged, and the element dtype is unchanged. -/
theorem inference_frame (op : PoolOp) (t : TensorType)
    (h : pool_type_inference op = Except.ok t) :
    t.shape.length = op.x_shape.length ∧
    t.shape.take 2 = op.x_shape.take 2 ∧ t.dtype = op.x_dtype := by
  obtain ⟨xs, dt, ks, st, pt, pd, cm, v⟩ := op
  simp only at h ⊢
  simp only [pool_type_inference, Pooling.default_inputs, Pooling.type_inference,
    Option.getD_some] at h
  split at h
  · exact Except.noConfusion h
  · split at h
    · exact Except.noConfusion h
    · split at h
      · exact Except.noConfusion h
      · split at h
        · exact Except.noConfusion h
        · split at h
          · exact Except.noConfusion h
          · injection h with h2
            subst h2
            refine ⟨?_, ?_, rfl⟩
            · simp [spatial_dimensions_out_shape]
              omega
            · by_cases hlen : 2 ≤ xs.length
              · rw [List.take_append_eq_append_take]
                have h0 : 2 - (List.take 2 xs).length = 0 := by
                  simp [List.length_take]
                  omega
                rw [h0]
                simp [List.take_take]
              · have hD : (List.drop 2 xs).length = 0 := by simp; omega
                simp [spatial_dimensions_out_shape, hD, List.take_take]

/-- Witness for C9, at the C1 example input. -/
theorem inference_frame_witness :
    (⟨DType.fp32, [1, 1, 4]⟩ : TensorType).shape.length = c9w_op.x_shape.length ∧
    (⟨DType.fp32, [1, 1, 4]⟩ : TensorType).shape.take 2 = c9w_op.x_shape.take 2 ∧
    (⟨DType.fp32, [1, 1, 4]⟩ : TensorType).dtype = c9w_op.x_dtype :=
  inference_frame c9w_op ⟨DType.fp32, [1, 1, 4]⟩ rfl

/-- Claim C10: two `avg_pool` invocations that differ only in
`exclude_padding_from_average` produce identical type-inference
outcomes; the flag is never shape-affecting. -/
theorem avg_flag_not_shape_affecting (a b : AvgPoolOp) (h : a.toPoolOp = b.toPoolOp) :
    avg_pool_type_inference a = avg_pool_type_inference b := by
  simp [avg_pool_type_inference, h]

/-- Witness for C10. -/
theorem avg_flag_not_shape_affecting_witness :
    avg_pool_type_inference c10w_a = avg_pool_type_inference c10w_b :=
  avg_flag_not_shape_affecting c10w_a c10w_b rfl
